import Mathlib

/-!
Shallow embedding of the StockTrace client-side cache/consistency core
(`src/CacheContext.jsx`), the auth/logout flow (`src/AuthContext.jsx`,
`Layout`), the Receipts page confirm workflow (`src/pages/Receipts.jsx`)
and the ledger running-balance contract rendered by `src/pages/Ledger.jsx`.

JavaScript objects are embedded as association lists over a value type `V`
(lookup takes the first binding; object spread prepends the overriding
bindings).  The eight per-entity cache slots become a function from a
`Key` enumeration to a `Slot` record mirroring
`{ data, timestamp, loading }`.  Timestamps are integers (JS epoch
milliseconds); the JS truthiness test `!cached.timestamp` is mirrored by
treating a `0` timestamp as absent.  Asynchronous execution is embedded
as explicit state passing: the synchronous prefix of `fetchWithCache`
(up to its `await`) is one atomic step (`entryStep`), and the completion
of a fetch (success or failure) is another.

`cache` is a React `useState` value: every `fetchWithCache` closure reads
the immutable snapshot captured at the render that created it, while
`setCache(prev => ...)` only updates the live state the *next* render
observes.  For a lone caller the snapshot and the live state coincide
(`entryStep`, `fetchWithCacheRun`), but the concurrency model must keep
them apart: `entryStepSnap` reads the caller's frozen snapshot and writes
the live state, `entryStepsSameSnapshot` runs several same-render callers
over one shared snapshot, and `pollTrySnap` polls the snapshot captured by
the `setInterval` closure — which never changes.
-/

namespace StockTrace

/-- A JavaScript object, embedded as an association list of fields.
Lookup returns the first binding for a key. -/
abbrev Obj (V : Type) : Type := List (String × V)

/-- Property access `o.k`: the first binding for `k`, `none` for JS `undefined`. -/
def oget {V : Type} (o : Obj V) (k : String) : Option V :=
  (o.find? (fun p => p.1 == k)).map (fun p => p.2)

/-- JS object spread `{...w, ...u}`: bindings of `u` override those of `w`. -/
def ospread {V : Type} (w u : Obj V) : Obj V := u ++ w

/-- The eight entity-class cache keys of `CacheContext.jsx` lines 17-24. -/
inductive Key
  | warehouses
  | locations
  | products
  | users
  | receipts
  | deliveries
  | transfers
  | adjustments
deriving DecidableEq

/-- One cache slot: `{ data, timestamp, loading }` (CacheContext.jsx line 17).
`data` is `null` or an array of entities; `timestamp` is `null` or epoch ms. -/
structure Slot (V : Type) where
  data : Option (List (Obj V))
  timestamp : Option Int
  loading : Bool
deriving DecidableEq

/-- The slot value `{ data: null, timestamp: null, loading: false }`. -/
def emptySlot {V : Type} : Slot V := ⟨none, none, false⟩

/-- The whole cache state: one slot per key. -/
abbrev Cache (V : Type) : Type := Key → Slot V

/-- Initial cache state (CacheContext.jsx lines 16-25): every slot empty. -/
def initialCache {V : Type} : Cache V := fun _ => emptySlot

/-- `CACHE_DURATION = 5 * 60 * 1000` (CacheContext.jsx line 28). -/
def CACHE_DURATION : Int := 5 * 60 * 1000

/-- `DOCUMENT_CACHE_DURATION = 1 * 60 * 1000` (CacheContext.jsx line 141). -/
def DOCUMENT_CACHE_DURATION : Int := 1 * 60 * 1000

/-- `isCacheValid` (CacheContext.jsx lines 31-35):
`if (!cached.data || !cached.timestamp) return false;
 return Date.now() - cached.timestamp < CACHE_DURATION`.
A `0` timestamp is JS-falsy, hence invalid. -/
def isCacheValid {V : Type} (slot : Slot V) (now : Int) : Bool :=
  match slot.data, slot.timestamp with
  | some _, some ts => ts != 0 && decide (now - ts < CACHE_DURATION)
  | _, _ => false

/-- The freshness test of `getDocuments` (CacheContext.jsx lines 143-145):
`cached.data && cached.timestamp && Date.now() - cached.timestamp <
DOCUMENT_CACHE_DURATION`. -/
def docFresh {V : Type} (slot : Slot V) (now : Int) : Bool :=
  match slot.data, slot.timestamp with
  | some _, some ts => ts != 0 && decide (now - ts < DOCUMENT_CACHE_DURATION)
  | _, _ => false

/-- Outcome of the synchronous prefix of one `fetchWithCache` call:
it either returns the cached data (line 41), joins the in-flight fetch by
polling (lines 45-53), or marks the slot loading and starts the backend
fetch (lines 57-63). -/
inductive EntryRes (V : Type)
  | returnCached (d : Option (List (Obj V)))
  | joinWait
  | startFetch
deriving DecidableEq

/-- Is the outcome `startFetch`, i.e. did this caller invoke `fetchFunction`? -/
def isStart {V : Type} : EntryRes V → Bool
  | .startFetch => true
  | _ => false

/-- The synchronous prefix of `fetchWithCache(key, fetchFunction, forceRefresh)`
(CacheContext.jsx lines 38-60), acting on the slot of `key`.  It runs to the
suspension point (`await fetchFunction()`) without interleaving.  This is
the lone-caller form, where the closure's render snapshot of `cache` and
the live state coincide; concurrent callers are modelled by
`entryStepSnap`, which keeps the two apart. -/
def entryStep {V : Type} (slot : Slot V) (now : Int) (force : Bool) :
    Slot V × EntryRes V :=
  if !force && isCacheValid slot now then
    (slot, .returnCached slot.data)
  else if slot.loading then
    (slot, .joinWait)
  else
    ({ slot with loading := true }, .startFetch)

/-- Successful completion of a fetch (CacheContext.jsx lines 63-73): the slot
becomes `{ data, timestamp: Date.now(), loading: false }`. -/
def completeSuccess {V : Type} (v : List (Obj V)) (now : Int) : Slot V :=
  ⟨some v, some now, false⟩

/-- Failed completion of a fetch (CacheContext.jsx lines 78-81): only
`loading` is reset; `data` and `timestamp` are kept. -/
def completeFailure {V : Type} (slot : Slot V) : Slot V :=
  { slot with loading := false }

/-- One poll of the 100 ms interval of a joined caller (CacheContext.jsx
lines 47-52).  The `setInterval` callback closes over the render-time
`cache` snapshot, so every poll reads the same frozen `snap` — never the
live state: `none` while the snapshot's `loading` is set (it never clears
within the snapshot), otherwise the snapshot's data. -/
def pollTrySnap {V : Type} (snap : Slot V) : Option (Option (List (Obj V))) :=
  if snap.loading then none else some snap.data

/-- The synchronous prefix of one `fetchWithCache` call under React
`useState` semantics: all reads (`isCacheValid(key)` at line 40,
`cache[key].loading` at line 45) go to the caller's frozen render snapshot
`snap`, while the `setCache(prev => ...)` write at lines 57-60 applies to
the live state `live` that only later renders observe. -/
def entryStepSnap {V : Type} (snap live : Slot V) (now : Int) (force : Bool) :
    Slot V × EntryRes V :=
  if !force && isCacheValid snap now then
    (live, .returnCached snap.data)
  else if snap.loading then
    (live, .joinWait)
  else
    ({ live with loading := true }, .startFetch)

/-- `n` concurrent `fetchWithCache` calls issued in the same tick from the
same render: every caller reads the one shared snapshot `snap` (the first
caller's `setCache` does not change it), while their writes accumulate in
the live state.  Returns the live state after all prefixes and the list of
per-caller outcomes in order. -/
def entryStepsSameSnapshot {V : Type} (snap live : Slot V) (now : Int)
    (force : Bool) : Nat → Slot V × List (EntryRes V)
  | 0 => (live, [])
  | n + 1 =>
    let p := entryStepSnap snap live now force
    let q := entryStepsSameSnapshot snap p.1 now force n
    (q.1, p.2 :: q.2)

/-- A whole single-caller run of `fetchWithCache` on one slot, with the
result of the (single possible) `fetchFunction()` invocation given as
`fnResult`.  Returns `none` when the caller would join an in-flight fetch
(its resolution then depends on another caller's completion); otherwise
the updated slot, the settled result, and the number of `fetchFunction`
invocations performed. -/
def fetchWithCacheRun {V : Type} (slot : Slot V) (now : Int) (force : Bool)
    (fnResult : Except String (List (Obj V))) :
    Option (Slot V × Except String (Option (List (Obj V))) × Nat) :=
  match entryStep slot now force with
  | (s, .returnCached d) => some (s, .ok d, 0)
  | (_, .joinWait) => none
  | (s, .startFetch) =>
    match fnResult with
    | .ok v => some (completeSuccess v now, .ok (some v), 1)
    | .error e => some (completeFailure s, .error e, 1)

/-- `updateCache(key, updater)` (CacheContext.jsx lines 87-96), in the
function-updater form used by every in-repo caller: the slot of `key`
becomes `{ data: updater(prev[key].data), timestamp: Date.now(),
loading: false }`; other slots are kept by the object spread. -/
def updateCache {V : Type} (k : Key)
    (updater : Option (List (Obj V)) → Option (List (Obj V)))
    (now : Int) (c : Cache V) : Cache V :=
  fun k2 => if k2 = k then ⟨updater (c k).data, some now, false⟩ else c k2

/-- `invalidateCache(key)` (CacheContext.jsx lines 99-104). -/
def invalidateCache {V : Type} (k : Key) (c : Cache V) : Cache V :=
  fun k2 => if k2 = k then ⟨none, none, false⟩ else c k2

/-- `clearAllCache()` (CacheContext.jsx lines 107-118): replaces the whole
cache state with the initial one (all eight slots empty). -/
def clearAllCache {V : Type} (_c : Cache V) : Cache V :=
  fun _ => ⟨none, none, false⟩

/-- The `setCache` performed at the start of a fetch (CacheContext.jsx
lines 57-60), lifted to the whole cache. -/
def setLoading {V : Type} (k : Key) (c : Cache V) : Cache V :=
  fun k2 => if k2 = k then { c k with loading := true } else c k2

/-- The `setCache` performed on fetch success (CacheContext.jsx lines 66-73),
lifted to the whole cache. -/
def setFetched {V : Type} (k : Key) (v : List (Obj V)) (now : Int)
    (c : Cache V) : Cache V :=
  fun k2 => if k2 = k then ⟨some v, some now, false⟩ else c k2

/-- The `setCache` performed on fetch failure (CacheContext.jsx lines 78-81),
lifted to the whole cache. -/
def setFailed {V : Type} (k : Key) (c : Cache V) : Cache V :=
  fun k2 => if k2 = k then { c k with loading := false } else c k2

/-- `doc.status === statusFilter` (CacheContext.jsx lines 148 and 157). -/
def statusMatches (filter : String) (doc : Obj String) : Bool :=
  decide (oget doc "status" = some filter)

/-- The in-memory status filtering of `getDocuments`: applied only when
`statusFilter` is truthy (a non-empty string). -/
def applyStatusFilter (filter : String) (docs : List (Obj String)) :
    List (Obj String) :=
  if filter ≠ "" then docs.filter (statusMatches filter) else docs

/-- A single-caller run of `getDocuments(type, statusFilter, forceRefresh)`
(CacheContext.jsx lines 138-161) on the slot of its cache key, with the
result of the (single possible) backend invocation given as `fnResult`.
If the slot is fresher than `DOCUMENT_CACHE_DURATION` (and no force), the
cached list is filtered in memory and returned with no fetch; otherwise the
call is delegated to `fetchWithCache` and its settled value is filtered in
memory.  `none` when the caller would join an in-flight fetch. -/
def getDocumentsRun (slot : Slot String) (now : Int) (statusFilter : String)
    (force : Bool) (fnResult : Except String (List (Obj String))) :
    Option (Slot String × Except String (List (Obj String)) × Nat) :=
  if !force && docFresh slot now then
    some (slot, .ok (applyStatusFilter statusFilter ((slot.data).getD [])), 0)
  else
    (fetchWithCacheRun slot now force fnResult).map (fun r =>
      (r.1, r.2.1.map (fun d => applyStatusFilter statusFilter (d.getD [])),
        r.2.2))

/-- `getDocuments` lifted to the whole cache, abstracting the backend as
`apiGet type status warehouseId` (the code invokes
`api.getDocuments(type, '', '')`, CacheContext.jsx line 153).  The cache
key is `` `${type}` `` (line 139): the document type itself. -/
def getDocumentsCacheRun (c : Cache String) (type : Key) (now : Int)
    (statusFilter : String) (force : Bool)
    (apiGet : Key → String → String → Except String (List (Obj String))) :
    Option (Cache String × Except String (List (Obj String)) × Nat) :=
  let cacheKey := type
  match getDocumentsRun (c cacheKey) now statusFilter force
      (apiGet type "" "") with
  | none => none
  | some r =>
    some ((fun k => if k = cacheKey then r.1 else c k), r.2.1, r.2.2)

/-- `addWarehouse` (CacheContext.jsx lines 164-168):
`current ? [...current, warehouse] : [warehouse]`. -/
def addWarehouse {V : Type} [DecidableEq V] (warehouse : Obj V) (now : Int)
    (c : Cache V) : Cache V :=
  updateCache .warehouses (fun current => match current with
    | some l => some (l ++ [warehouse])
    | none => some [warehouse]) now c

/-- `updateWarehouse` (CacheContext.jsx lines 170-174):
`current ? current.map(w => w.id === id ? { ...w, ...updates } : w) : current`. -/
def updateWarehouse {V : Type} [DecidableEq V] (id : V) (updates : Obj V)
    (now : Int) (c : Cache V) : Cache V :=
  updateCache .warehouses (fun current => match current with
    | some l => some (l.map (fun w =>
        if oget w "id" = some id then ospread w updates else w))
    | none => none) now c

/-- `removeWarehouse` (CacheContext.jsx lines 176-180):
`current ? current.filter(w => w.id !== id) : current`. -/
def removeWarehouse {V : Type} [DecidableEq V] (id : V) (now : Int)
    (c : Cache V) : Cache V :=
  updateCache .warehouses (fun current => match current with
    | some l => some (l.filter (fun w => decide (oget w "id" ≠ some id)))
    | none => none) now c

/-- `addLocation` (CacheContext.jsx lines 182-186). -/
def addLocation {V : Type} [DecidableEq V] (location : Obj V) (now : Int)
    (c : Cache V) : Cache V :=
  updateCache .locations (fun current => match current with
    | some l => some (l ++ [location])
    | none => some [location]) now c

/-- `addProduct` (CacheContext.jsx lines 188-192). -/
def addProduct {V : Type} [DecidableEq V] (product : Obj V) (now : Int)
    (c : Cache V) : Cache V :=
  updateCache .products (fun current => match current with
    | some l => some (l ++ [product])
    | none => some [product]) now c

/-- `removeProduct` (CacheContext.jsx lines 194-198). -/
def removeProduct {V : Type} [DecidableEq V] (id : V) (now : Int)
    (c : Cache V) : Cache V :=
  updateCache .products (fun current => match current with
    | some l => some (l.filter (fun p => decide (oget p "id" ≠ some id)))
    | none => none) now c

/-- `addUser` (CacheContext.jsx lines 200-204). -/
def addUser {V : Type} [DecidableEq V] (user : Obj V) (now : Int)
    (c : Cache V) : Cache V :=
  updateCache .users (fun current => match current with
    | some l => some (l ++ [user])
    | none => some [user]) now c

/-- `updateUser` (CacheContext.jsx lines 206-210). -/
def updateUser {V : Type} [DecidableEq V] (id : V) (updates : Obj V)
    (now : Int) (c : Cache V) : Cache V :=
  updateCache .users (fun current => match current with
    | some l => some (l.map (fun u =>
        if oget u "id" = some id then ospread u updates else u))
    | none => none) now c

/-- `removeUser` (CacheContext.jsx lines 212-216). -/
def removeUser {V : Type} [DecidableEq V] (id : V) (now : Int)
    (c : Cache V) : Cache V :=
  updateCache .users (fun current => match current with
    | some l => some (l.filter (fun u => decide (oget u "id" ≠ some id)))
    | none => none) now c

/-- `addDocument(type, document)` (CacheContext.jsx lines 219-223): the cache
key is the document type. -/
def addDocument {V : Type} [DecidableEq V] (type : Key) (document : Obj V)
    (now : Int) (c : Cache V) : Cache V :=
  updateCache type (fun current => match current with
    | some l => some (l ++ [document])
    | none => some [document]) now c

/-- `updateDocument(type, id, updates)` (CacheContext.jsx lines 225-229). -/
def updateDocument {V : Type} [DecidableEq V] (type : Key) (id : V)
    (updates : Obj V) (now : Int) (c : Cache V) : Cache V :=
  updateCache type (fun current => match current with
    | some l => some (l.map (fun doc =>
        if oget doc "id" = some id then ospread doc updates else doc))
    | none => none) now c

/-- `removeDocument(type, id)` (CacheContext.jsx lines 231-235). -/
def removeDocument {V : Type} [DecidableEq V] (type : Key) (id : V)
    (now : Int) (c : Cache V) : Cache V :=
  updateCache type (fun current => match current with
    | some l => some (l.filter (fun doc => decide (oget doc "id" ≠ some id)))
    | none => none) now c

/-- `updateLocationCache(location)` (CacheContext.jsx lines 255-257):
`current ? current.map(l => l.id === location.id ? location : l) : current`. -/
def updateLocationCache {V : Type} [DecidableEq V] (location : Obj V)
    (now : Int) (c : Cache V) : Cache V :=
  updateCache .locations (fun current => match current with
    | some l => some (l.map (fun x =>
        if oget x "id" = oget location "id" then location else x))
    | none => none) now c

/-- `updateProductCache(product)` (CacheContext.jsx lines 258-260). -/
def updateProductCache {V : Type} [DecidableEq V] (product : Obj V)
    (now : Int) (c : Cache V) : Cache V :=
  updateCache .products (fun current => match current with
    | some l => some (l.map (fun x =>
        if oget x "id" = oget product "id" then product else x))
    | none => none) now c

/-- `updateUserCache(user)` (CacheContext.jsx lines 265-267). -/
def updateUserCache {V : Type} [DecidableEq V] (user : Obj V)
    (now : Int) (c : Cache V) : Cache V :=
  updateCache .users (fun current => match current with
    | some l => some (l.map (fun x =>
        if oget x "id" = oget user "id" then user else x))
    | none => none) now c

/-- Session state relevant to logout: the persisted token, the authenticated
user (`AuthContext.jsx`), and the shared cache. -/
structure AppState (V : Type) where
  token : Option String
  user : Option (Obj String)
  cache : Cache V

/-- `AuthContext.logout` (AuthContext.jsx lines 46-49):
`localStorage.removeItem('token'); setUser(null)`.  It does not touch the
cache. -/
def logout {V : Type} (s : AppState V) : AppState V :=
  { s with token := none, user := none }

/-- `Layout.handleLogout` (Layout, lines 16-19): `logout(); navigate('/login')`.
Navigation has no cache effect. -/
def handleLogout {V : Type} (s : AppState V) : AppState V :=
  logout s

/-- `isAdmin` (AuthContext.jsx line 52): `user?.role === 'ADMIN'`. -/
def isAdminOf (user : Option (Obj String)) : Bool :=
  match user with
  | some u => decide (oget u "role" = some "ADMIN")
  | none => false

/-- Guard of the edit button of the Receipts page (Receipts.jsx line 170):
it is rendered only when `doc.status === 'DRAFT'`. -/
def editOffered (doc : Obj String) : Bool :=
  decide (oget doc "status" = some "DRAFT")

/-- Guard of the confirm button of the Receipts page (Receipts.jsx line 175):
it is rendered only when `doc.status === 'DRAFT' && isAdmin`. -/
def confirmOffered (doc : Obj String) (isAdmin : Bool) : Bool :=
  decide (oget doc "status" = some "DRAFT") && isAdmin

/-- The document-targeting operations the Receipts page can perform on a
listed document, each guarded by the button that triggers it: editing a
draft (handleSubmit, Receipts.jsx lines 89-93, patching the cache with the
server-updated document) and confirming a draft as an admin (handleConfirm,
lines 109-119, after which the reloaded document is `CONFIRMED`
server-side).  No other operation targets an existing document. -/
inductive ClientDocStep (isAdmin : Bool) : Obj String → Obj String → Prop
  | edit (doc updated : Obj String) :
      editOffered doc = true → ClientDocStep isAdmin doc updated
  | confirmReload (doc reloaded : Obj String) :
      confirmOffered doc isAdmin = true →
      oget reloaded "status" = some "CONFIRMED" →
      ClientDocStep isAdmin doc reloaded

/-- Cache effect of a successful `handleConfirm` (Receipts.jsx lines 112-115):
`await api.confirmDocument(...); invalidateCache('receipts'); loadData()` —
the receipts key is invalidated, never patched optimistically. -/
def handleConfirmSuccess (c : Cache String) : Cache String :=
  invalidateCache .receipts c

/-- One stock-ledger entry as rendered by Ledger.jsx lines 114-138:
a signed quantity change and the server-supplied running balance. -/
structure LedgerEntry where
  qty_change : Int
  running_balance : Int
deriving DecidableEq

/-- Modelled from the spec: the running-balance computation is performed by
the external REST backend (`GET /reports/ledger`), which is not part of this
repository; spec §4.3 states that each entry's `running_balance` is the
previous balance plus its own `qty_change`, seeded by the opening stock.
`specLedger opening changes` builds the ledger the backend contract
promises for a fixed (product, warehouse, location) scope. -/
def specLedger (opening : Int) : List Int → List LedgerEntry
  | [] => []
  | q :: qs => ⟨q, opening + q⟩ :: specLedger (opening + q) qs

/-- A receipts slot fetched at epoch ms 100000: at `now = 220000` it is
2 minutes old — older than `DOCUMENT_CACHE_DURATION` but younger than
`CACHE_DURATION`. -/
def staleReceiptsSlot : Slot String :=
  ⟨some [[("id", "r1"), ("status", "DRAFT")]], some 100000, false⟩

/-- A session whose products slot holds cached data, used to examine the
logout flow. -/
def loggedInState : AppState Int :=
  ⟨some "tok", some [("role", "ADMIN")],
    fun k => if k = Key.products then ⟨some [[("id", 7)]], some 5, false⟩
      else emptySlot⟩

/-- A cache whose every slot holds the one-element list `[{id: 1, qty: 3}]`,
used to exercise the optimistic helpers on concrete data. -/
def demoCache : Cache Int :=
  fun _ => ⟨some [[("id", 1), ("qty", 3)]], some 4, false⟩

/-- The first entry of a spec-modelled ledger carries the opening stock plus
its own quantity change. -/
lemma specLedger_head (opening : Int) (qs : List Int) (e : LedgerEntry)
    (h : (specLedger opening qs)[0]? = some e) :
    e.running_balance = opening + e.qty_change := by
  cases qs with
  | nil => simp [specLedger] at h
  | cons q rest =>
    simp [specLedger] at h
    rw [← h]

/-- Consecutive entries of a spec-modelled ledger differ by the later entry's
quantity change. -/
lemma specLedger_step (opening : Int) (qs : List Int) :
    ∀ (i : Nat) (e1 e2 : LedgerEntry),
      (specLedger opening qs)[i]? = some e1 →
      (specLedger opening qs)[i + 1]? = some e2 →
      e2.running_balance = e1.running_balance + e2.qty_change := by
  induction qs generalizing opening with
  | nil => intro i e1 e2 h1 _; simp [specLedger] at h1
  | cons q rest ih =>
    intro i e1 e2 h1 h2
    match i with
    | 0 =>
      have he1 : e1 = ⟨q, opening + q⟩ := by
        simp [specLedger] at h1; exact h1.symm
      have h2b : (specLedger (opening + q) rest)[0]? = some e2 := by
        simpa [specLedger] using h2
      have := specLedger_head (opening + q) rest e2 h2b
      rw [he1]; exact this
    | Nat.succ i2 =>
      have h1b : (specLedger (opening + q) rest)[i2]? = some e1 := by
        simpa [specLedger] using h1
      have h2b : (specLedger (opening + q) rest)[i2 + 1]? = some e2 := by
        simpa [specLedger] using h2
      exact ih (opening + q) i2 e1 e2 h1b h2b

/-- C8: in a spec-modelled ledger for a fixed (product, warehouse, location)
scope, every entry's running balance equals the previous balance plus its own
quantity change, the first entry's balance is the opening stock plus its own
change, and the literal sequence
`[{+10, 10}, {-3, 7}, {+5, 12}]` arises from opening stock 0. -/
theorem c8_running_balance :
    (∀ (opening : Int) (qs : List Int) (i : Nat) (e1 e2 : LedgerEntry),
      (specLedger opening qs)[i]? = some e1 →
      (specLedger opening qs)[i + 1]? = some e2 →
      e2.running_balance = e1.running_balance + e2.qty_change)
  ∧ (∀ (opening : Int) (qs : List Int) (e : LedgerEntry),
      (specLedger opening qs)[0]? = some e →
      e.running_balance = opening + e.qty_change)
  ∧ specLedger 0 [10, -3, 5] = [⟨10, 10⟩, ⟨-3, 7⟩, ⟨5, 12⟩] :=
  ⟨fun opening qs => specLedger_step opening qs,
   fun opening qs => specLedger_head opening qs,
   by decide⟩

/-- Witness for C8 at the literal example sequence: the second entry's
balance is the first entry's balance plus the second entry's change. -/
theorem c8_witness :
    (⟨-3, 7⟩ : LedgerEntry).running_balance =
      (⟨10, 10⟩ : LedgerEntry).running_balance +
        (⟨-3, 7⟩ : LedgerEntry).qty_change :=
  c8_running_balance.1 0 [10, -3, 5] 0 ⟨10, 10⟩ ⟨-3, 7⟩ (by decide) (by decide)

/-- C2 (code bug): a receipts slot that is 2 minutes old — older than the
1-minute `DOCUMENT_CACHE_DURATION` but younger than the 5-minute
`CACHE_DURATION` — is returned as-is by `getDocuments` with
`forceRefresh = false` and zero invocations of the backend fetch: the inner
`fetchWithCache` freshness check masks the 1-minute window. -/
theorem c2_stale_document_not_refetched :
    DOCUMENT_CACHE_DURATION < 220000 - 100000 ∧
    220000 - 100000 < CACHE_DURATION ∧
    getDocumentsRun staleReceiptsSlot 220000 "" false (Except.ok []) =
      some (staleReceiptsSlot,
        Except.ok [[("id", "r1"), ("status", "DRAFT")]], 0) :=
  ⟨by decide, by decide, rfl⟩

/-- Counterexample to C9 as stated: after the logout flow the products slot
still holds its cached data — no client code path invokes `clearAllCache`. -/
theorem c9_claim_counterexample :
    ((handleLogout loggedInState).cache Key.products).data = some [[("id", 7)]]
    ∧ ¬ ((handleLogout loggedInState).cache Key.products).data = none := by
  constructor
  · rfl
  · intro h
    rw [show ((handleLogout loggedInState).cache Key.products).data
      = some [[("id", 7)]] from rfl] at h
    exact Option.noConfusion h

/-- C9 (amended): `clearAllCache` resets every one of the 8 slots to the
empty state, but it is not invoked on logout: `Layout.handleLogout` (via
`AuthContext.logout`) removes the token and clears the user while leaving
every cache slot unchanged. -/
theorem c9_logout_amended {V : Type} :
    (∀ (c : Cache V) (k : Key), clearAllCache c k = emptySlot)
  ∧ (∀ s : AppState V,
      (handleLogout s).cache = s.cache ∧
      (handleLogout s).user = none ∧
      (handleLogout s).token = none) :=
  ⟨fun _ _ => rfl, fun _ => ⟨rfl, rfl, rfl⟩⟩

/-- Counterexample to C5 as stated: `addProduct` on a slot whose `data` is
null does not leave it null — it installs the one-element list. -/
theorem c5_claim_counterexample :
    ((initialCache : Cache Int) Key.products).data = none ∧
    ((addProduct [("id", 1)] 5 (initialCache : Cache Int)) Key.products).data
      = some [[("id", 1)]] :=
  ⟨rfl, rfl⟩

/-- C5 (amended): on a slot whose `data` is null, the update and remove
helpers leave `data` null, while the add helpers set `data` to the
one-element list holding the new entry. -/
theorem c5_null_data_amended {V : Type} [DecidableEq V] (c : Cache V)
    (now : Int) :
    (∀ w, (c .warehouses).data = none →
      ((addWarehouse w now c) .warehouses).data = some [w])
  ∧ (∀ x, (c .locations).data = none →
      ((addLocation x now c) .locations).data = some [x])
  ∧ (∀ p, (c .products).data = none →
      ((addProduct p now c) .products).data = some [p])
  ∧ (∀ u, (c .users).data = none →
      ((addUser u now c) .users).data = some [u])
  ∧ (∀ ty d, (c ty).data = none →
      ((addDocument ty d now c) ty).data = some [d])
  ∧ (∀ id u, (c .warehouses).data = none →
      ((updateWarehouse id u now c) .warehouses).data = none)
  ∧ (∀ id, (c .warehouses).data = none →
      ((removeWarehouse id now c) .warehouses).data = none)
  ∧ (∀ id u, (c .users).data = none →
      ((updateUser id u now c) .users).data = none)
  ∧ (∀ id, (c .products).data = none →
      ((removeProduct id now c) .products).data = none)
  ∧ (∀ id, (c .users).data = none →
      ((removeUser id now c) .users).data = none)
  ∧ (∀ ty id u, (c ty).data = none →
      ((updateDocument ty id u now c) ty).data = none)
  ∧ (∀ ty id, (c ty).data = none →
      ((removeDocument ty id now c) ty).data = none)
  ∧ (∀ x, (c .locations).data = none →
      ((updateLocationCache x now c) .locations).data = none)
  ∧ (∀ x, (c .products).data = none →
      ((updateProductCache x now c) .products).data = none)
  ∧ (∀ x, (c .users).data = none →
      ((updateUserCache x now c) .users).data = none) :=
  ⟨fun w h => by simp [addWarehouse, updateCache, h],
   fun x h => by simp [addLocation, updateCache, h],
   fun p h => by simp [addProduct, updateCache, h],
   fun u h => by simp [addUser, updateCache, h],
   fun ty d h => by simp [addDocument, updateCache, h],
   fun id u h => by simp [updateWarehouse, updateCache, h],
   fun id h => by simp [removeWarehouse, updateCache, h],
   fun id u h => by simp [updateUser, updateCache, h],
   fun id h => by simp [removeProduct, updateCache, h],
   fun id h => by simp [removeUser, updateCache, h],
   fun ty id u h => by simp [updateDocument, updateCache, h],
   fun ty id h => by simp [removeDocument, updateCache, h],
   fun x h => by simp [updateLocationCache, updateCache, h],
   fun x h => by simp [updateProductCache, updateCache, h],
   fun x h => by simp [updateUserCache, updateCache, h]⟩

/-- Witness for the amended C5 on the initial cache: `updateWarehouse` keeps
the null warehouses slot null, `addWarehouse` installs a singleton. -/
theorem c5_witness :
    ((updateWarehouse (1 : Int) [] 3 initialCache) Key.warehouses).data = none
    ∧ ((addWarehouse [("id", (1 : Int))] 3 initialCache) Key.warehouses).data
      = some [[("id", 1)]] := by
  have h := c5_null_data_amended (V := Int) initialCache 3
  exact ⟨h.2.2.2.2.2.1 1 [] rfl, h.1 [("id", 1)] rfl⟩

/-- C3: when the slot is not mid-fetch and `fetchFunction` is invoked and
fails, `fetchWithCache` resets `loading` to `false`, leaves the prior `data`
and `timestamp` untouched, re-throws the error, and invokes `fetchFunction`
exactly once (no internal retry). -/
theorem c3_error_propagation {V : Type} [DecidableEq V] (slot : Slot V)
    (now : Int) (force : Bool) (e : String)
    (h0 : slot.loading = false)
    (h1 : force = true ∨ isCacheValid slot now = false) :
    ∃ s2 : Slot V,
      fetchWithCacheRun slot now force (Except.error e) =
        some (s2, Except.error e, 1) ∧
      s2.data = slot.data ∧ s2.timestamp = slot.timestamp ∧
      s2.loading = false := by
  have hentry : entryStep slot now force =
      ({ slot with loading := true }, EntryRes.startFetch) := by
    rcases h1 with h1 | h1
    · subst h1; simp [entryStep, h0]
    · simp [entryStep, h1, h0]
  refine ⟨{ slot with loading := false }, ?_, rfl, rfl, rfl⟩
  simp [fetchWithCacheRun, hentry, completeFailure]

/-- Witness for C3: a failing fetch on the empty slot re-throws, performs
one invocation, and leaves the slot empty and not loading. -/
theorem c3_witness :
    ∃ s2 : Slot Int,
      fetchWithCacheRun (emptySlot : Slot Int) 0 false (Except.error "boom") =
        some (s2, Except.error "boom", 1) ∧
      s2.data = none ∧ s2.timestamp = none ∧ s2.loading = false := by
  obtain ⟨s2, h, hd, ht, hl⟩ :=
    c3_error_propagation (V := Int) emptySlot 0 false "boom" rfl (Or.inr rfl)
  exact ⟨s2, h, hd, ht, hl⟩

/-- C4: on a non-null cached sequence, every add helper appends at the end,
every update helper rewrites exactly the entries whose `id` matches (with
the spread-merged entry for `updateWarehouse`/`updateUser`/`updateDocument`
and the given entry for the `*Cache` variants) leaving all other entries
unchanged, and every remove helper removes exactly the entries whose `id`
matches. -/
theorem c4_optimistic_helpers {V : Type} [DecidableEq V] (c : Cache V)
    (now : Int) :
    (∀ (w : Obj V) l, (c .warehouses).data = some l →
      ((addWarehouse w now c) .warehouses).data = some (l ++ [w]))
  ∧ (∀ (x : Obj V) l, (c .locations).data = some l →
      ((addLocation x now c) .locations).data = some (l ++ [x]))
  ∧ (∀ (p : Obj V) l, (c .products).data = some l →
      ((addProduct p now c) .products).data = some (l ++ [p]))
  ∧ (∀ (u : Obj V) l, (c .users).data = some l →
      ((addUser u now c) .users).data = some (l ++ [u]))
  ∧ (∀ (ty : Key) (d : Obj V) l, (c ty).data = some l →
      ((addDocument ty d now c) ty).data = some (l ++ [d]))
  ∧ (∀ (id : V) (u : Obj V) l, (c .warehouses).data = some l →
      ∃ l2, ((updateWarehouse id u now c) .warehouses).data = some l2 ∧
        l2.length = l.length ∧
        ∀ (i : Nat) (w : Obj V), l[i]? = some w →
          (oget w "id" = some id → l2[i]? = some (ospread w u)) ∧
          (oget w "id" ≠ some id → l2[i]? = some w))
  ∧ (∀ (id : V) (u : Obj V) l, (c .users).data = some l →
      ∃ l2, ((updateUser id u now c) .users).data = some l2 ∧
        l2.length = l.length ∧
        ∀ (i : Nat) (w : Obj V), l[i]? = some w →
          (oget w "id" = some id → l2[i]? = some (ospread w u)) ∧
          (oget w "id" ≠ some id → l2[i]? = some w))
  ∧ (∀ (ty : Key) (id : V) (u : Obj V) l, (c ty).data = some l →
      ∃ l2, ((updateDocument ty id u now c) ty).data = some l2 ∧
        l2.length = l.length ∧
        ∀ (i : Nat) (w : Obj V), l[i]? = some w →
          (oget w "id" = some id → l2[i]? = some (ospread w u)) ∧
          (oget w "id" ≠ some id → l2[i]? = some w))
  ∧ (∀ (x : Obj V) l, (c .locations).data = some l →
      ∃ l2, ((updateLocationCache x now c) .locations).data = some l2 ∧
        l2.length = l.length ∧
        ∀ (i : Nat) (w : Obj V), l[i]? = some w →
          (oget w "id" = oget x "id" → l2[i]? = some x) ∧
          (oget w "id" ≠ oget x "id" → l2[i]? = some w))
  ∧ (∀ (x : Obj V) l, (c .products).data = some l →
      ∃ l2, ((updateProductCache x now c) .products).data = some l2 ∧
        l2.length = l.length ∧
        ∀ (i : Nat) (w : Obj V), l[i]? = some w →
          (oget w "id" = oget x "id" → l2[i]? = some x) ∧
          (oget w "id" ≠ oget x "id" → l2[i]? = some w))
  ∧ (∀ (x : Obj V) l, (c .users).data = some l →
      ∃ l2, ((updateUserCache x now c) .users).data = some l2 ∧
        l2.length = l.length ∧
        ∀ (i : Nat) (w : Obj V), l[i]? = some w →
          (oget w "id" = oget x "id" → l2[i]? = some x) ∧
          (oget w "id" ≠ oget x "id" → l2[i]? = some w))
  ∧ (∀ (id : V) l, (c .warehouses).data = some l →
      ∃ l2, ((removeWarehouse id now c) .warehouses).data = some l2 ∧
        ∀ w, w ∈ l2 ↔ w ∈ l ∧ oget w "id" ≠ some id)
  ∧ (∀ (id : V) l, (c .products).data = some l →
      ∃ l2, ((removeProduct id now c) .products).data = some l2 ∧
        ∀ w, w ∈ l2 ↔ w ∈ l ∧ oget w "id" ≠ some id)
  ∧ (∀ (id : V) l, (c .users).data = some l →
      ∃ l2, ((removeUser id now c) .users).data = some l2 ∧
        ∀ w, w ∈ l2 ↔ w ∈ l ∧ oget w "id" ≠ some id)
  ∧ (∀ (ty : Key) (id : V) l, (c ty).data = some l →
      ∃ l2, ((removeDocument ty id now c) ty).data = some l2 ∧
        ∀ w, w ∈ l2 ↔ w ∈ l ∧ oget w "id" ≠ some id) := by
  refine ⟨?_, ?_, ?_, ?_, ?_, ?_, ?_, ?_, ?_, ?_, ?_, ?_, ?_, ?_, ?_⟩
  · intro w l hl; simp [addWarehouse, updateCache, hl]
  · intro x l hl; simp [addLocation, updateCache, hl]
  · intro p l hl; simp [addProduct, updateCache, hl]
  · intro u l hl; simp [addUser, updateCache, hl]
  · intro ty d l hl; simp [addDocument, updateCache, hl]
  · intro id u l hl
    refine ⟨l.map (fun w => if oget w "id" = some id then ospread w u else w),
      by simp [updateWarehouse, updateCache, hl], by simp,
      fun i w hw => ⟨fun hid => ?_, fun hid => ?_⟩⟩
    · rw [List.getElem?_map, hw]; simp [hid]
    · rw [List.getElem?_map, hw]; simp [hid]
  · intro id u l hl
    refine ⟨l.map (fun w => if oget w "id" = some id then ospread w u else w),
      by simp [updateUser, updateCache, hl], by simp,
      fun i w hw => ⟨fun hid => ?_, fun hid => ?_⟩⟩
    · rw [List.getElem?_map, hw]; simp [hid]
    · rw [List.getElem?_map, hw]; simp [hid]
  · intro ty id u l hl
    refine ⟨l.map (fun w => if oget w "id" = some id then ospread w u else w),
      by simp [updateDocument, updateCache, hl], by simp,
      fun i w hw => ⟨fun hid => ?_, fun hid => ?_⟩⟩
    · rw [List.getElem?_map, hw]; simp [hid]
    · rw [List.getElem?_map, hw]; simp [hid]
  · intro x l hl
    refine ⟨l.map (fun w => if oget w "id" = oget x "id" then x else w),
      by simp [updateLocationCache, updateCache, hl], by simp,
      fun i w hw => ⟨fun hid => ?_, fun hid => ?_⟩⟩
    · rw [List.getElem?_map, hw]; simp [hid]
    · rw [List.getElem?_map, hw]; simp [hid]
  · intro x l hl
    refine ⟨l.map (fun w => if oget w "id" = oget x "id" then x else w),
      by simp [updateProductCache, updateCache, hl], by simp,
      fun i w hw => ⟨fun hid => ?_, fun hid => ?_⟩⟩
    · rw [List.getElem?_map, hw]; simp [hid]
    · rw [List.getElem?_map, hw]; simp [hid]
  · intro x l hl
    refine ⟨l.map (fun w => if oget w "id" = oget x "id" then x else w),
      by simp [updateUserCache, updateCache, hl], by simp,
      fun i w hw => ⟨fun hid => ?_, fun hid => ?_⟩⟩
    · rw [List.getElem?_map, hw]; simp [hid]
    · rw [List.getElem?_map, hw]; simp [hid]
  · intro id l hl
    refine ⟨l.filter (fun w => decide (oget w "id" ≠ some id)),
      by simp [removeWarehouse, updateCache, hl], fun w => ?_⟩
    simp [List.mem_filter]
  · intro id l hl
    refine ⟨l.filter (fun w => decide (oget w "id" ≠ some id)),
      by simp [removeProduct, updateCache, hl], fun w => ?_⟩
    simp [List.mem_filter]
  · intro id l hl
    refine ⟨l.filter (fun w => decide (oget w "id" ≠ some id)),
      by simp [removeUser, updateCache, hl], fun w => ?_⟩
    simp [List.mem_filter]
  · intro ty id l hl
    refine ⟨l.filter (fun w => decide (oget w "id" ≠ some id)),
      by simp [removeDocument, updateCache, hl], fun w => ?_⟩
    simp [List.mem_filter]

/-- Witness for C4 on the demo cache: `addProduct` appends, and
`removeUser 1` drops the entry whose id is 1. -/
theorem c4_witness :
    ((addProduct [("id", 2)] 9 demoCache) Key.products).data =
      some [[("id", 1), ("qty", 3)], [("id", 2)]] ∧
    (∃ l2, ((removeUser (1 : Int) 9 demoCache) Key.users).data = some l2 ∧
      ¬ [("id", (1 : Int)), ("qty", 3)] ∈ l2) := by
  obtain ⟨a1, a2, a3, a4, a5, u6, u7, u8, r9, r10, r11, m12, m13, m14, m15⟩ :=
    c4_optimistic_helpers (V := Int) demoCache 9
  constructor
  · exact a3 [("id", 2)] [[("id", 1), ("qty", 3)]] rfl
  · obtain ⟨l2, hd, hm⟩ := m14 1 [[("id", 1), ("qty", 3)]] rfl
    refine ⟨l2, hd, fun hmem => ?_⟩
    exact ((hm _).mp hmem).2 (by decide)

/-- C6: on a never-fetched document slot, `getDocuments` stores the
unfiltered backend list (fetched with empty status and warehouse arguments)
under the slot of the type itself — the stored slot and the invocation count
are the same for every status filter — and the settled result is the
in-memory filtering of that unfiltered list; with a non-empty filter it
holds exactly the documents whose status equals the filter. -/
theorem c6_unfiltered_document_cache (c : Cache String) (type : Key)
    (now : Int) (f : String) (force : Bool)
    (apiGet : Key → String → String → Except String (List (Obj String)))
    (l : List (Obj String))
    (h0 : (c type).loading = false)
    (h1 : (c type).data = none)
    (h2 : apiGet type "" "" = Except.ok l) :
    ∃ c2 : Cache String,
      (∀ f2, getDocumentsCacheRun c type now f2 force apiGet =
        some (c2, Except.ok (applyStatusFilter f2 l), 1)) ∧
      (c2 type).data = some l ∧
      (c2 type).timestamp = some now ∧
      (∀ k, k ≠ type → c2 k = c k) ∧
      (f ≠ "" → ∀ d, d ∈ applyStatusFilter f l ↔
        d ∈ l ∧ oget d "status" = some f) := by
  have hdf : docFresh (c type) now = false := by
    simp [docFresh, h1]
  have hcv : isCacheValid (c type) now = false := by
    simp [isCacheValid, h1]
  have hentry : entryStep (c type) now force =
      ({ c type with loading := true }, EntryRes.startFetch) := by
    simp [entryStep, hcv, h0]
  refine ⟨fun k => if k = type then completeSuccess l now else c k,
    ?_, ?_, ?_, ?_, ?_⟩
  · intro f2
    simp [getDocumentsCacheRun, getDocumentsRun, hdf, fetchWithCacheRun,
      hentry, h2, Except.map]
  · simp [completeSuccess]
  · simp [completeSuccess]
  · intro k hk; simp [hk]
  · intro hf d
    simp [applyStatusFilter, hf, List.mem_filter, statusMatches]

/-- Witness for C6: fetching receipts into the empty cache stores the full
two-document list while the DRAFT-filtered view is returned, and that view
holds exactly the draft document. -/
theorem c6_witness :
    ∃ c2 : Cache String,
      getDocumentsCacheRun initialCache Key.receipts 50 "DRAFT" false
          (fun _ _ _ =>
            Except.ok [[("status", "DRAFT")], [("status", "CONFIRMED")]]) =
        some (c2, Except.ok (applyStatusFilter "DRAFT"
          [[("status", "DRAFT")], [("status", "CONFIRMED")]]), 1) ∧
      (c2 Key.receipts).data =
        some [[("status", "DRAFT")], [("status", "CONFIRMED")]] ∧
      applyStatusFilter "DRAFT"
          [[("status", "DRAFT")], [("status", "CONFIRMED")]] =
        [[("status", "DRAFT")]] := by
  obtain ⟨c2, hall, hd, ht, hfr, hfil⟩ :=
    c6_unfiltered_document_cache initialCache Key.receipts 50 "DRAFT" false
      (fun _ _ _ =>
        Except.ok [[("status", "DRAFT")], [("status", "CONFIRMED")]])
      [[("status", "DRAFT")], [("status", "CONFIRMED")]] rfl rfl rfl
  exact ⟨c2, hall "DRAFT", hd, by decide⟩

/-- C7: the confirm action is offered only for DRAFT documents and only to
an admin (`user?.role === 'ADMIN'`); every document-targeting client
operation of the Receipts page requires the document to be DRAFT — so no
client operation applies to a CONFIRMED document, in particular none
transitions it back to DRAFT — and a successful confirm invalidates the
receipts slot (rather than patching it) so that the reload performs a
fresh backend fetch. -/
theorem c7_confirm_terminal :
    (∀ (doc : Obj String) (a : Bool), confirmOffered doc a = true →
      oget doc "status" = some "DRAFT" ∧ a = true)
  ∧ (∀ u, isAdminOf (some u) = true ↔ oget u "role" = some "ADMIN")
  ∧ isAdminOf none = false
  ∧ (∀ (a : Bool) (d d2 : Obj String), ClientDocStep a d d2 →
      oget d "status" = some "DRAFT")
  ∧ (∀ (a : Bool) (d : Obj String), oget d "status" = some "CONFIRMED" →
      ¬ ∃ d2, ClientDocStep a d d2)
  ∧ (∀ c : Cache String, handleConfirmSuccess c Key.receipts = emptySlot ∧
      ∀ k, k ≠ Key.receipts → handleConfirmSuccess c k = c k)
  ∧ (∀ (now : Int) (f : String) (force : Bool) (l : List (Obj String)),
      getDocumentsRun emptySlot now f force (Except.ok l) =
        some (completeSuccess l now, Except.ok (applyStatusFilter f l), 1))
    := by
  have hdraft : ∀ (a : Bool) (d d2 : Obj String), ClientDocStep a d d2 →
      oget d "status" = some "DRAFT" := by
    intro a d d2 h
    cases h with
    | edit he => simpa [editOffered] using he
    | confirmReload hc _ =>
      have hc2 : oget d "status" = some "DRAFT" ∧ a = true := by
        simpa [confirmOffered] using hc
      exact hc2.1
  refine ⟨?_, ?_, rfl, hdraft, ?_, ?_, ?_⟩
  · intro doc a h
    simpa [confirmOffered] using h
  · intro u
    simp [isAdminOf]
  · intro a d hd h
    obtain ⟨d2, hs⟩ := h
    have h2 := hdraft a d d2 hs
    rw [hd] at h2
    simp at h2
  · intro c
    constructor
    · simp [handleConfirmSuccess, invalidateCache, emptySlot]
    · intro k hk
      simp [handleConfirmSuccess, invalidateCache, hk]
  · intro now f force l
    simp [getDocumentsRun, docFresh, emptySlot, fetchWithCacheRun, entryStep,
      isCacheValid, completeSuccess, Except.map]

/-- Witness for C7: no client operation applies to a document whose status
is CONFIRMED, even for an admin. -/
theorem c7_witness :
    ¬ ∃ d2, ClientDocStep true [("status", "CONFIRMED")] d2 := by
  have h := c7_confirm_terminal
  exact h.2.2.2.2.1 true [("status", "CONFIRMED")] rfl

/-- C10: every cache operation scoped to one key — `updateCache`,
`invalidateCache`, the three `setCache` transitions of `fetchWithCache`
(start, success, failure), and every entity-specific helper — leaves the
slot of any other key unchanged. -/
theorem c10_key_isolation {V : Type} [DecidableEq V] (c : Cache V)
    (now : Int) (k k2 : Key) (h : k2 ≠ k) :
    (∀ f, updateCache k f now c k2 = c k2)
  ∧ invalidateCache k c k2 = c k2
  ∧ setLoading k c k2 = c k2
  ∧ (∀ v, setFetched k v now c k2 = c k2)
  ∧ setFailed k c k2 = c k2
  ∧ (∀ w, k2 ≠ Key.warehouses → addWarehouse w now c k2 = c k2)
  ∧ (∀ id u, k2 ≠ Key.warehouses → updateWarehouse id u now c k2 = c k2)
  ∧ (∀ id, k2 ≠ Key.warehouses → removeWarehouse id now c k2 = c k2)
  ∧ (∀ x, k2 ≠ Key.locations → addLocation x now c k2 = c k2)
  ∧ (∀ x, k2 ≠ Key.locations → updateLocationCache x now c k2 = c k2)
  ∧ (∀ p, k2 ≠ Key.products → addProduct p now c k2 = c k2)
  ∧ (∀ p, k2 ≠ Key.products → updateProductCache p now c k2 = c k2)
  ∧ (∀ id, k2 ≠ Key.products → removeProduct id now c k2 = c k2)
  ∧ (∀ u, k2 ≠ Key.users → addUser u now c k2 = c k2)
  ∧ (∀ id u, k2 ≠ Key.users → updateUser id u now c k2 = c k2)
  ∧ (∀ u, k2 ≠ Key.users → updateUserCache u now c k2 = c k2)
  ∧ (∀ id, k2 ≠ Key.users → removeUser id now c k2 = c k2)
  ∧ (∀ d, addDocument k d now c k2 = c k2)
  ∧ (∀ id u, updateDocument k id u now c k2 = c k2)
  ∧ (∀ id, removeDocument k id now c k2 = c k2) :=
  ⟨fun f => by simp [updateCache, h],
   by simp [invalidateCache, h],
   by simp [setLoading, h],
   fun v => by simp [setFetched, h],
   by simp [setFailed, h],
   fun w h2 => by simp [addWarehouse, updateCache, h2],
   fun id u h2 => by simp [updateWarehouse, updateCache, h2],
   fun id h2 => by simp [removeWarehouse, updateCache, h2],
   fun x h2 => by simp [addLocation, updateCache, h2],
   fun x h2 => by simp [updateLocationCache, updateCache, h2],
   fun p h2 => by simp [addProduct, updateCache, h2],
   fun p h2 => by simp [updateProductCache, updateCache, h2],
   fun id h2 => by simp [removeProduct, updateCache, h2],
   fun u h2 => by simp [addUser, updateCache, h2],
   fun id u h2 => by simp [updateUser, updateCache, h2],
   fun u h2 => by simp [updateUserCache, updateCache, h2],
   fun id h2 => by simp [removeUser, updateCache, h2],
   fun d => by simp [addDocument, updateCache, h],
   fun id u => by simp [updateDocument, updateCache, h],
   fun id => by simp [removeDocument, updateCache, h]⟩

/-- Witness for C10: invalidating products and adding a warehouse both leave
the users slot of the initial cache untouched. -/
theorem c10_witness :
    invalidateCache Key.products (initialCache : Cache Int) Key.users =
      initialCache Key.users ∧
    addWarehouse [("id", (1 : Int))] 0 initialCache Key.users =
      initialCache Key.users := by
  have h := c10_key_isolation (V := Int) initialCache 0 Key.products Key.users
    (by decide)
  exact ⟨h.2.1, h.2.2.2.2.2.1 [("id", 1)] (by decide)⟩

/-- On a cache miss, every caller of the same render takes the fetch branch:
each reads the shared frozen snapshot — in which `loading` is still false,
the first caller's `setCache` being invisible to it — and invokes
`fetchFunction`. -/
lemma entryStepsSameSnapshot_miss {V : Type} [DecidableEq V] (snap : Slot V)
    (now : Int) (h0 : snap.loading = false)
    (h1 : isCacheValid snap now = false) :
    ∀ (n : Nat) (live : Slot V),
      (entryStepsSameSnapshot snap live now false n).2 =
        List.replicate n EntryRes.startFetch := by
  intro n
  induction n with
  | zero => intro live; rfl
  | succ m ih =>
    intro live
    have hstep : entryStepSnap snap live now false =
        ({ live with loading := true }, EntryRes.startFetch) := by
      simp [entryStepSnap, h1, h0]
    simp [entryStepsSameSnapshot, hstep, ih, List.replicate_succ]

/-- C1 (claim violated by the code): with the empty products slot, two
`fetchWithCache` calls issued in the same tick from the same render both
read the shared frozen `useState` snapshot — where `loading` is still
false — so both invoke `fetchFunction` (two concurrent backend fetches,
not one); and a caller from a later render that observed `loading = true`
joins by polling the snapshot captured by its `setInterval` closure, in
which `loading` never clears, so its poll yields nothing forever and its
promise never resolves with the fetched value. -/
theorem c1_concurrent_fetch_bug :
    (∀ n : Nat,
      (entryStepsSameSnapshot (emptySlot : Slot Int) emptySlot 0 false n).2 =
        List.replicate n EntryRes.startFetch)
  ∧ List.countP isStart
      (entryStepsSameSnapshot (emptySlot : Slot Int) emptySlot 0 false 2).2
      = 2
  ∧ (entryStepSnap (⟨none, none, true⟩ : Slot Int)
      (completeSuccess [[("id", 1)]] 7) 0 false).2 = EntryRes.joinWait
  ∧ pollTrySnap (⟨none, none, true⟩ : Slot Int) = none := by
  have hall := entryStepsSameSnapshot_miss (V := Int) emptySlot 0 rfl rfl
  refine ⟨fun n => hall n emptySlot, ?_, rfl, rfl⟩
  rw [hall 2 emptySlot]
  decide

end StockTrace
